import Mathlib

/-
Verification of the SITE-EMAR 2026 conference-management front end
(paper submission, admin review, auth, registration).

The source is browser-side JavaScript that drives a hosted backend
(record store, file storage, authentication) through its client SDK.
We embed the workflow operations shallowly: the backend is an explicit
state (tables, storage-bucket keys, notification and activity logs),
every operation is a pure function from that state (plus its inputs and,
where the source checks an upstream error, an injected failure flag) to
a uniform success/failure result and the successor state.  Requests
whose results the source inspects get a failure flag; requests whose
results the source ignores are modelled as the source treats them
(fire-and-forget).  The upload path additionally records the sequence
of network requests it issues, which the temporal claim about the
size check needs.

Supabase semantics reflected here:
  - a query ending in .single() succeeds exactly when one row matches,
    and errors on zero or several matches;
  - storage .remove and .getPublicUrl: remove deletes the listed keys
    (removing an absent key is not an error); getPublicUrl is a local
    computation, not a network request;
  - .delete().neq(col, v) deletes every row whose column differs
    from v, so a row equal to v survives.

Server-generated display columns (created_at) and locale rendering
(formatDateTime, formatCurrency) are presentation-only and outside the
properties below; they are elided from the row types and the email
bodies use the raw field values where the source interpolates a
locale-rendered one.
-/

namespace SiteEmar

/-- Uniform success/failure result, mirroring the JS
objects with success, data and error fields. -/
inductive Res (α : Type) where
  | ok (data : α)
  | err (msg : String)
deriving DecidableEq, Repr

/-- The uploaded browser File object: the fields the code reads. -/
structure FileData where
  name : String
  size : Nat
deriving DecidableEq, Repr

/-- Metadata collected by the submission form. -/
structure PaperMeta where
  title : String
  abstract : String
  keywords : List String
deriving DecidableEq, Repr

/-- A row of the papers table, as written by uploadPaper and mutated by
updatePaperStatus.  Review columns are null until an admin reviews. -/
structure Paper where
  id : String
  user_id : String
  user_name : String
  user_email : String
  paper_title : String
  abstract : String
  keywords : List String
  file_name : String
  file_url : String
  file_size_bytes : Nat
  status : String
  reviewed_by : Option String
  reviewer_name : Option String
  review_date : Option String
  review_comments : Option String
deriving DecidableEq, Repr

/-- A row of the users table (the columns this code reads). -/
structure UserRec where
  id : String
  auth_id : String
  title : String
  full_name : String
  email : String
deriving DecidableEq, Repr

/-- A row of the admins table. -/
structure AdminRec where
  id : String
  auth_id : String
  full_name : String
  email : String
  role : String
  is_active : Bool
deriving DecidableEq, Repr

/-- The unified profile returned by getCurrentUserRecord
(a users row, or an admins row as fallback). -/
structure ProfileRec where
  id : String
  full_name : String
  email : String
deriving DecidableEq, Repr

/-- A row of the email_notifications table. -/
structure EmailNotif where
  recipient_email : String
  recipient_name : String
  subject : String
  body : String
  type : String
  status : String
deriving DecidableEq, Repr

/-- The two activity payload shapes this code writes
(the JS passes a plain object). -/
inductive ActionData where
  | statusUpdate (paper_id : String) (new_status : String) (comments : String)
  | deleteAll (count : Nat)
deriving DecidableEq, Repr

/-- Rendering of the payload standing in for JSON.stringify
(no claim depends on the exact text). -/
def describeAction : ActionData → String
  | .statusUpdate pid ns c =>
      "paper_id: " ++ pid ++ ", new_status: " ++ ns ++ ", comments: " ++ c
  | .deleteAll n => "count: " ++ toString n

/-- The JS reads actionData.paper_id with a falsy-to-null guard. -/
def ActionData.paperId? : ActionData → Option String
  | .statusUpdate pid _ _ => if pid == "" then none else some pid
  | .deleteAll _ => none

/-- A row of the activity_logs table. -/
structure ActivityLog where
  admin_id : String
  actor_email : String
  actor_role : String
  action_type : String
  action_description : String
  target_table : String
  target_id : Option String
  new_data : ActionData
deriving DecidableEq, Repr

/-- Network requests issued to the hosted backend.  getPublicUrl is a
local computation in the client SDK and therefore not listed. -/
inductive NetCall where
  | authGetUser
  | dbSelect (table : String)
  | dbInsert (table : String)
  | dbUpdate (table : String)
  | dbDelete (table : String)
  | storageUpload (path : String)
  | storageRemove (paths : List String)
deriving DecidableEq, Repr

/-- Whether a request is a storage upload. -/
def NetCall.isStorageUpload : NetCall → Bool
  | .storageUpload _ => true
  | _ => false

/-- Whether a request is a record-store insert. -/
def NetCall.isDbInsert : NetCall → Bool
  | .dbInsert _ => true
  | _ => false

/-- The backend state: the authenticated identity (the auth uid of the
current session, none when signed out), the tables this code touches,
and the keys present in the papers storage bucket.  nextPaperId stands
in for the id generator of the record store. -/
structure DB where
  authUser : Option String
  users : List UserRec
  admins : List AdminRec
  papers : List Paper
  storage : List String
  email_notifications : List EmailNotif
  activity_logs : List ActivityLog
  nextPaperId : Nat
deriving DecidableEq, Repr

/- ===== Validation helpers (utils.js) ===== -/

/-- Index of the last occurrence of a character, as JS lastIndexOf
(none standing for -1). -/
def lastIndexOf (cs : List Char) (c : Char) : Option Nat :=
  match cs.reverse.findIdx? (fun x => x == c) with
  | none => none
  | some i => some (cs.length - 1 - i)

/-- Extension extraction of isValidFileType: the index of the last dot
is taken on the original name, the substring on the lowercased name;
JS substring clamps the -1 of a dotless name to 0, yielding the whole
lowercased name. -/
def fileExtension (fileName : String) : String :=
  let lowerCs := fileName.toList.map Char.toLower
  match lastIndexOf fileName.toList '.' with
  | none => String.mk lowerCs
  | some i => String.mk (lowerCs.drop i)

/-- isValidFileType from utils.js. -/
def isValidFileType (fileName : String)
    (allowedTypes : List String := [".pdf", ".doc", ".docx"]) : Bool :=
  allowedTypes.contains (fileExtension fileName)

/-- isValidFileSize from utils.js: size in bytes against a MiB bound. -/
def isValidFileSize (fileSize : Nat) (maxSizeMB : Nat := 10) : Bool :=
  fileSize ≤ maxSizeMB * 1024 * 1024

/-- capitalize from utils.js. -/
def capitalize (str : String) : String :=
  match str.toList with
  | [] => ""
  | c :: rest => String.mk (c.toUpper :: rest)

/-- The underscore-to-space replacement applied to a status before
display (status.replace with the underscore pattern). -/
def replaceUnderscores (s : String) : String :=
  String.mk (s.toList.map (fun ch => if ch == '_' then ' ' else ch))

/-- The startsWith test of JS, computed on the character lists. -/
def jsStartsWith (s pre : String) : Bool :=
  pre.toList.isPrefixOf s.toList

/-- Category normalization performed by initRegistrationForm in
registration.js before the users insert. -/
def normalizeCategory (rawCategory : String) : String :=
  if jsStartsWith rawCategory "listener_" then "listener"
  else if rawCategory == "scholar" then "student"
  else if rawCategory == "expert" then "scientist"
  else rawCategory

/- ===== Auth primitives (auth.js / supabase client) ===== -/

/-- isAdmin from auth.js: null when signed out, otherwise a single-row
query on admins filtered by auth_id and is_active = true; the query
errors (hence null) unless exactly one row matches. -/
def isAdmin (db : DB) : Option AdminRec :=
  match db.authUser with
  | none => none
  | some uid =>
    match db.admins.filter (fun a => a.auth_id == uid && a.is_active) with
    | [a] => some a
    | _ => none

/-- getCurrentUserRecord from auth.js: an auth lookup, then a
single-row users query by auth_id, then a single-row admins query as
fallback (this fallback does not filter is_active).  Returns the
profile together with the network requests issued. -/
def getCurrentUserRecord (db : DB) : Option ProfileRec × List NetCall :=
  match db.authUser with
  | none => (none, [NetCall.authGetUser])
  | some uid =>
    match db.users.filter (fun v => v.auth_id == uid) with
    | [v] =>
        (some { id := v.id, full_name := v.full_name, email := v.email },
         [NetCall.authGetUser, NetCall.dbSelect "users"])
    | _ =>
      match db.admins.filter (fun a => a.auth_id == uid) with
      | [a] =>
          (some { id := a.id, full_name := a.full_name, email := a.email },
           [NetCall.authGetUser, NetCall.dbSelect "users", NetCall.dbSelect "admins"])
      | _ =>
          (none,
           [NetCall.authGetUser, NetCall.dbSelect "users", NetCall.dbSelect "admins"])

/- ===== Paper submission module ===== -/

/-- uploadPaper from the paper-submission module.  now is the
Date.now() millisecond timestamp used in the storage key; the two flags
inject failures of the storage upload and of the papers insert (the
only upstream results this function inspects before its own success).
Returns the result, the successor state, and the network requests
issued in order. -/
def uploadPaper (db : DB) (file : FileData) (metadata : PaperMeta) (now : Nat)
    (storageUploadFails : Bool) (dbInsertFails : Bool) :
    Res Paper × DB × List NetCall :=
  match db.authUser with
  | none => (Res.err "Please log in to submit a paper", db, [NetCall.authGetUser])
  | some _ =>
    let (profile?, tRec) := getCurrentUserRecord db
    let trace := NetCall.authGetUser :: tRec
    match profile? with
    | none =>
        (Res.err "User record not found. Please complete registration first.",
         db, trace)
    | some profile =>
      if isValidFileType file.name [".pdf", ".doc", ".docx"] = false then
        (Res.err "Invalid file type. Please upload PDF, DOC, or DOCX files only.",
         db, trace)
      else if isValidFileSize file.size 10 = false then
        (Res.err "File size exceeds 10 MB limit", db, trace)
      else
        let fileName := profile.id ++ "/" ++ toString now ++ "_" ++ file.name
        let trace2 := trace ++ [NetCall.storageUpload fileName]
        if storageUploadFails then
          (Res.err "storage upload failed", db, trace2)
        else
          let dbS := { db with storage := db.storage ++ [fileName] }
          let trace3 := trace2 ++ [NetCall.dbInsert "papers"]
          if dbInsertFails then
            -- partial effect: the file stays in storage, as in the source
            (Res.err "paper record insert failed", dbS, trace3)
          else
            let paper : Paper := {
              id := toString dbS.nextPaperId,
              user_id := profile.id,
              user_name := profile.full_name,
              user_email := profile.email,
              paper_title := metadata.title,
              abstract := metadata.abstract,
              keywords := metadata.keywords,
              file_name := file.name,
              file_url := fileName,
              file_size_bytes := file.size,
              status := "pending",
              reviewed_by := none,
              reviewer_name := none,
              review_date := none,
              review_comments := none }
            (Res.ok paper,
             { dbS with papers := dbS.papers ++ [paper],
                        nextPaperId := dbS.nextPaperId + 1 },
             trace3)

/-- deletePaper from the paper-submission module (the owner path):
single-row fetch by id, pending-only guard, storage removal whose
failure is only warned about, then the record delete whose failure is
fatal. -/
def deletePaper (db : DB) (paperId : String)
    (storageRemoveFails : Bool) (dbDeleteFails : Bool) : Res Unit × DB :=
  match db.papers.filter (fun q => q.id == paperId) with
  | [p] =>
    if p.status != "pending" then
      (Res.err "Cannot delete paper that is under review or has been reviewed", db)
    else
      let db1 :=
        if storageRemoveFails then db
        else { db with storage := db.storage.filter (fun k => k != p.file_url) }
      if dbDeleteFails then (Res.err "paper record delete failed", db1)
      else (Res.ok (), { db1 with papers := db1.papers.filter (fun q => q.id != paperId) })
  | _ => (Res.err "paper fetch failed", db)

/- ===== Admin module (admin.js) ===== -/

/-- The review columns written by updatePaperStatus. -/
def applyReview (a : AdminRec) (newStatus : String) (comments : String)
    (nowIso : String) (p : Paper) : Paper :=
  { p with status := newStatus,
           reviewed_by := some a.id,
           reviewer_name := some a.full_name,
           review_date := some nowIso,
           review_comments := some comments }

/-- The per-status message of sendStatusUpdateEmail. -/
def statusMessageFor (status : String) : String :=
  if status == "accepted" then
    "Congratulations! Your paper has been ACCEPTED for presentation at SITE-EMAR 2026."
  else if status == "rejected" then
    "We regret to inform you that your paper has been rejected."
  else if status == "under_review" then
    "Your paper is currently under review."
  else if status == "revision_required" then
    "Your paper requires revisions. Please review the comments and resubmit."
  else
    "Your paper status has been updated."

/-- Body of the status-update email.  The source interpolates a
locale-rendered review date and the page origin; the raw review date
is used here and the origin line is elided, both presentation-only. -/
def statusUpdateEmailBody (userTitle userName msg paperTitle pid statusText
    reviewDate comments : String) : String :=
  "Dear " ++ userTitle ++ " " ++ userName ++ ",\n\n" ++ msg ++
  "\n\nPaper Details:\n- Title: " ++ paperTitle ++
  "\n- Submission ID: " ++ pid ++
  "\n- New Status: " ++ statusText ++
  "\n- Review Date: " ++ reviewDate ++ "\n" ++
  (if comments == "" then "" else "\nReviewer Comments:\n" ++ comments ++ "\n") ++
  "\nBest regards,\nSITE-EMAR 2026 Organizing Committee"

/-- sendUserNotification from utils.js: appends a row to
email_notifications with status opened_client, then opens the mail
composer (outside the model).  The insert result is not inspected by
the source. -/
def sendUserNotification (db : DB) (email recipientName subject body typ : String) : DB :=
  { db with email_notifications := db.email_notifications ++ [{
      recipient_email := email,
      recipient_name := recipientName,
      subject := subject,
      body := body,
      type := typ,
      status := "opened_client" }] }

/-- sendStatusUpdateEmail from admin.js: skips silently when the joined
owner row is missing or its email is falsy, otherwise logs a
notification of type paper_status_update. -/
def sendStatusUpdateEmail (db : DB) (p : Paper) (owner : Option UserRec) : DB :=
  match owner with
  | none => db
  | some u =>
    if u.email == "" then db
    else
      sendUserNotification db u.email u.full_name
        "Paper Status Update - SITE-EMAR 2026"
        (statusUpdateEmailBody u.title u.full_name (statusMessageFor p.status)
          p.paper_title p.id (capitalize (replaceUnderscores p.status))
          (p.review_date.getD "") (p.review_comments.getD ""))
        "paper_status_update"

/-- logAdminActivity from admin.js: re-checks isAdmin, returns silently
when it fails, and appends one activity_logs row; its own insert
failures are swallowed. -/
def logAdminActivity (db : DB) (actionType : String) (payload : ActionData) : DB :=
  match isAdmin db with
  | none => db
  | some a =>
    { db with activity_logs := db.activity_logs ++ [{
        admin_id := a.id,
        actor_email := a.email,
        actor_role := a.role,
        action_type := actionType,
        action_description := describeAction payload,
        target_table := "papers",
        target_id := payload.paperId?,
        new_data := payload }] }

/-- updatePaperStatus from admin.js: re-checks admin identity, updates
the review columns of every row matching the id (the trailing single()
errors unless exactly one row came back), sends the owner notification
and appends the activity-log row.  nowIso is the ISO timestamp of the
review date.  No check constrains newStatus. -/
def updatePaperStatus (db : DB) (paperId newStatus comments nowIso : String) :
    Res Paper × DB :=
  match isAdmin db with
  | none => (Res.err "Unauthorized: Admin access required", db)
  | some a =>
    let updatedPapers := db.papers.map
      (fun q => if q.id == paperId then applyReview a newStatus comments nowIso q else q)
    match db.papers.filter (fun q => q.id == paperId) with
    | [] => (Res.err "paper update matched no rows", db)
    | [p] =>
      let upd := applyReview a newStatus comments nowIso p
      let db1 := { db with papers := updatedPapers }
      let owner := db1.users.find? (fun v => v.id == upd.user_id)
      let db2 := sendStatusUpdateEmail db1 upd owner
      let db3 := logAdminActivity db2 "paper_status_update"
        (ActionData.statusUpdate paperId newStatus comments)
      (Res.ok upd, db3)
    | _ :: _ :: _ =>
      -- the update applied server-side, then single() errored
      (Res.err "paper update returned multiple rows", { db with papers := updatedPapers })

/-- adminDeletePaper from admin.js: admin check, single-row fetch,
storage removal whose result the source never reads, then the record
delete whose failure is fatal. -/
def adminDeletePaper (db : DB) (paperId : String)
    (storageRemoveFails : Bool) (dbDeleteFails : Bool) : Res Unit × DB :=
  match isAdmin db with
  | none => (Res.err "Unauthorized: Admin access required", db)
  | some _ =>
    match db.papers.filter (fun q => q.id == paperId) with
    | [p] =>
      let db1 :=
        if storageRemoveFails then db
        else { db with storage := db.storage.filter (fun k => k != p.file_url) }
      if dbDeleteFails then (Res.err "paper record delete failed", db1)
      else (Res.ok (), { db1 with papers := db1.papers.filter (fun q => q.id != paperId) })
    | _ => (Res.err "paper fetch failed", db)

/-- The sentinel uuid of the neq filter in deleteAllPapers. -/
def zeroUuid : String := "00000000-0000-0000-0000-000000000000"

/-- deleteAllPapers from admin.js: admin check, fetch of every file_url,
best-effort bulk storage removal (result unread) when any non-empty
path exists, then delete of every row whose id differs from the
sentinel uuid, then one activity-log row carrying the fetched count. -/
def deleteAllPapers (db : DB)
    (storageRemoveFails : Bool) (dbDeleteFails : Bool) : Res Nat × DB :=
  match isAdmin db with
  | none => (Res.err "Unauthorized: Admin access required", db)
  | some _ =>
    let fetched := db.papers
    let fileUrls := (fetched.map (fun p => p.file_url)).filter (fun u => u != "")
    let db1 : DB :=
      { db with storage :=
          if fetched.length > 0 && fileUrls.length > 0 && !storageRemoveFails then
            db.storage.filter (fun k => !(fileUrls.contains k))
          else db.storage }
    if dbDeleteFails then (Res.err "papers delete failed", db1)
    else
      let db2 := { db1 with papers := db1.papers.filter (fun p => p.id == zeroUuid) }
      let db3 := logAdminActivity db2 "delete_all_papers"
        (ActionData.deleteAll fetched.length)
      (Res.ok fetched.length, db3)

/- ===== Concrete data for evaluating the theorems ===== -/

/-- A registered user whose auth uid is auth1. -/
def exUser : UserRec :=
  { id := "u1", auth_id := "auth1", title := "Dr.", full_name := "Alice Smith",
    email := "alice@example.com" }

/-- An active admin whose auth uid is auth9. -/
def exAdmin : AdminRec :=
  { id := "ad1", auth_id := "auth9", full_name := "Bob Admin",
    email := "admin@example.com", role := "admin", is_active := true }

/-- A pending submission owned by exUser. -/
def exPaperPending : Paper :=
  { id := "p1", user_id := "u1", user_name := "Alice Smith",
    user_email := "alice@example.com", paper_title := "X", abstract := "A",
    keywords := ["k"], file_name := "paper.pdf", file_url := "u1/5_paper.pdf",
    file_size_bytes := 2097152, status := "pending",
    reviewed_by := none, reviewer_name := none, review_date := none,
    review_comments := none }

/-- An already-accepted submission owned by exUser. -/
def exPaperAccepted : Paper :=
  { exPaperPending with
    id := "p2",
    status := "accepted",
    file_url := "u1/6_paper2.pdf" }

/-- Form metadata of the example upload. -/
def exMeta : PaperMeta := { title := "X", abstract := "", keywords := [] }

/-- Base state: exUser is signed in, two papers exist, their files are
in the bucket. -/
def exDB : DB :=
  { authUser := some "auth1", users := [exUser], admins := [exAdmin],
    papers := [exPaperPending, exPaperAccepted],
    storage := ["u1/5_paper.pdf", "u1/6_paper2.pdf"],
    email_notifications := [], activity_logs := [], nextPaperId := 7 }

/-- The same state with the admin signed in. -/
def exDbAdmin : DB := { exDB with authUser := some "auth9" }

/-- The admin is signed in but the admins row is deactivated. -/
def exDbDeactivated : DB :=
  { exDbAdmin with admins := [{ exAdmin with is_active := false }] }

/-- A paper carrying the sentinel uuid as id. -/
def exPaperZero : Paper :=
  { exPaperPending with
    id := zeroUuid,
    file_url := "u1/z.pdf" }

/-- Admin signed in, single paper whose id is the sentinel uuid. -/
def exDbZero : DB :=
  { exDbAdmin with papers := [exPaperZero], storage := ["u1/z.pdf"] }

/- ===== Claims ===== -/

/-- C9: the normalization applied before the registration insert maps
any value prefixed listener underscore to listener, scholar to
student, expert to scientist, and any other value through unchanged. -/
theorem normalizeCategory_complete_spec :
    (∀ s : String, jsStartsWith s "listener_" = true → normalizeCategory s = "listener")
    ∧ normalizeCategory "scholar" = "student"
    ∧ normalizeCategory "expert" = "scientist"
    ∧ (∀ s : String, jsStartsWith s "listener_" = false → s ≠ "scholar" → s ≠ "expert" →
        normalizeCategory s = s) := by
  refine ⟨?_, by decide, by decide, ?_⟩
  · intro s h
    simp [normalizeCategory, h]
  · intro s h1 h2 h3
    simp [normalizeCategory, h1, h2, h3]

/-- Witness for C9 at the concrete inputs of the spec scenario. -/
theorem normalizeCategory_complete_spec_witness :
    normalizeCategory "listener_onsite" = "listener"
    ∧ normalizeCategory "speaker" = "speaker" :=
  ⟨normalizeCategory_complete_spec.1 "listener_onsite" (by decide),
   normalizeCategory_complete_spec.2.2.2 "speaker" (by decide) (by decide) (by decide)⟩

/-- C8: isAdmin yields a record exactly when an active admins row
matches the signed-in auth uid (given at most one row matches, as the
single-row query presumes); an unauthenticated caller yields none. -/
theorem isAdmin_iff_active_row :
    (∀ db : DB, db.authUser = none → isAdmin db = none)
    ∧ (∀ (db : DB) (uid : String), db.authUser = some uid →
        (db.admins.filter (fun a => a.auth_id == uid && a.is_active)).length ≤ 1 →
        ((isAdmin db).isSome ↔
          ∃ a : AdminRec, a ∈ db.admins ∧ a.auth_id = uid ∧ a.is_active = true)) := by
  constructor
  · intro db h
    simp [isAdmin, h]
  · intro db uid hauth hlen
    simp only [isAdmin, hauth]
    cases hl : db.admins.filter (fun a => a.auth_id == uid && a.is_active) with
    | nil =>
      simp only [hl, Option.isSome_none, Bool.false_eq_true, false_iff]
      rintro ⟨a, ha, h1, h2⟩
      have hmem : a ∈ db.admins.filter (fun x => x.auth_id == uid && x.is_active) :=
        List.mem_filter.mpr ⟨ha, by simp [h1, h2]⟩
      rw [hl] at hmem
      exact absurd hmem (List.not_mem_nil a)
    | cons a t =>
      cases t with
      | nil =>
        simp only [hl, Option.isSome_some, true_iff]
        have hmem : a ∈ db.admins.filter (fun x => x.auth_id == uid && x.is_active) := by
          rw [hl]; exact List.mem_singleton_self a
        have := List.mem_filter.mp hmem
        refine ⟨a, this.1, ?_, ?_⟩
        · have h2 := this.2
          simp only [Bool.and_eq_true, beq_iff_eq] at h2
          exact h2.1
        · have h2 := this.2
          simp only [Bool.and_eq_true, beq_iff_eq] at h2
          exact h2.2
      | cons b t2 =>
        rw [hl] at hlen
        simp at hlen

/-- Witness for C8: the deactivated row yields none, matching the
absence of an active row. -/
theorem isAdmin_iff_active_row_witness :
    (isAdmin exDbDeactivated).isSome ↔
      ∃ a : AdminRec, a ∈ exDbDeactivated.admins ∧ a.auth_id = "auth9" ∧ a.is_active = true :=
  isAdmin_iff_active_row.2 exDbDeactivated "auth9" (by decide) (by decide)

/-- C1: owner-initiated delete of a paper whose status is not pending
fails with the invalid-state error and leaves the whole backend state,
storage object and papers row included, unchanged. -/
theorem deletePaper_nonpending_unchanged (db : DB) (paperId : String) (p : Paper)
    (storageRemoveFails dbDeleteFails : Bool)
    (hfetch : db.papers.filter (fun q => q.id == paperId) = [p])
    (hstatus : p.status ≠ "pending") :
    deletePaper db paperId storageRemoveFails dbDeleteFails =
      (Res.err "Cannot delete paper that is under review or has been reviewed", db) := by
  simp [deletePaper, hfetch, hstatus]

/-- Witness for C1 on the accepted paper of the example state. -/
theorem deletePaper_nonpending_unchanged_witness :
    deletePaper exDB "p2" false false =
      (Res.err "Cannot delete paper that is under review or has been reviewed", exDB) :=
  deletePaper_nonpending_unchanged exDB "p2" exPaperAccepted false false
    (by decide) (by decide)

/-- C5: owner-initiated delete of a pending paper succeeds and removes
the papers row; when the storage removal succeeds the object key is
gone, and when the storage removal fails the record is removed all the
same, the storage left as it was. -/
theorem deletePaper_pending_best_effort (db : DB) (paperId : String) (p : Paper)
    (hfetch : db.papers.filter (fun q => q.id == paperId) = [p])
    (hstatus : p.status = "pending") :
    ∀ storageRemoveFails : Bool,
      (deletePaper db paperId storageRemoveFails false).1 = Res.ok ()
      ∧ (deletePaper db paperId storageRemoveFails false).2.papers =
          db.papers.filter (fun q => q.id != paperId)
      ∧ (storageRemoveFails = false →
          (deletePaper db paperId storageRemoveFails false).2.storage =
            db.storage.filter (fun k => k != p.file_url))
      ∧ (storageRemoveFails = true →
          (deletePaper db paperId storageRemoveFails false).2.storage = db.storage) := by
  intro sf
  cases sf <;> simp [deletePaper, hfetch, hstatus]

/-- Witness for C5 with a failing storage removal on the pending paper. -/
theorem deletePaper_pending_best_effort_witness :
    (deletePaper exDB "p1" true false).1 = Res.ok ()
    ∧ (deletePaper exDB "p1" true false).2.papers =
        exDB.papers.filter (fun q => q.id != "p1")
    ∧ (true = false →
        (deletePaper exDB "p1" true false).2.storage =
          exDB.storage.filter (fun k => k != exPaperPending.file_url))
    ∧ (true = true → (deletePaper exDB "p1" true false).2.storage = exDB.storage) :=
  deletePaper_pending_best_effort exDB "p1" exPaperPending (by decide) (by decide) true

/-- C10: adminDeletePaper never reads the storage-removal result: for
either outcome of the removal the papers row is deleted and the call
succeeds; on removal failure the storage is untouched. -/
theorem adminDeletePaper_ignores_storage_failure (db : DB) (paperId uid : String)
    (p : Paper) (a : AdminRec)
    (hauth : db.authUser = some uid)
    (hadm : db.admins.filter (fun x => x.auth_id == uid && x.is_active) = [a])
    (hfetch : db.papers.filter (fun q => q.id == paperId) = [p]) :
    ∀ storageRemoveFails : Bool,
      (adminDeletePaper db paperId storageRemoveFails false).1 = Res.ok ()
      ∧ (adminDeletePaper db paperId storageRemoveFails false).2.papers =
          db.papers.filter (fun q => q.id != paperId)
      ∧ (storageRemoveFails = true →
          (adminDeletePaper db paperId storageRemoveFails false).2.storage = db.storage) := by
  intro sf
  cases sf <;> simp [adminDeletePaper, isAdmin, hauth, hadm, hfetch]

/-- Witness for C10: the accepted paper is deleted by the admin even
though the storage removal fails. -/
theorem adminDeletePaper_ignores_storage_failure_witness :
    (adminDeletePaper exDbAdmin "p2" true false).1 = Res.ok ()
    ∧ (adminDeletePaper exDbAdmin "p2" true false).2.papers =
        exDbAdmin.papers.filter (fun q => q.id != "p2")
    ∧ (true = true →
        (adminDeletePaper exDbAdmin "p2" true false).2.storage = exDbAdmin.storage) :=
  adminDeletePaper_ignores_storage_failure exDbAdmin "p2" "auth9" exPaperAccepted exAdmin
    (by decide) (by decide) (by decide) true

/-- C3: with the caller signed in and the profile resolved, a file of
disallowed extension makes uploadPaper fail with the validation error,
the state is untouched, and the requests issued contain no storage
upload and no record-store insert. -/
theorem uploadPaper_invalid_type_no_effect (db : DB) (file : FileData)
    (metadata : PaperMeta) (now : Nat) (uid : String) (u : UserRec)
    (storageUploadFails dbInsertFails : Bool)
    (hauth : db.authUser = some uid)
    (hrec : db.users.filter (fun v => v.auth_id == uid) = [u])
    (hty : isValidFileType file.name [".pdf", ".doc", ".docx"] = false) :
    (uploadPaper db file metadata now storageUploadFails dbInsertFails).1 =
        Res.err "Invalid file type. Please upload PDF, DOC, or DOCX files only."
    ∧ (uploadPaper db file metadata now storageUploadFails dbInsertFails).2.1 = db
    ∧ ((uploadPaper db file metadata now storageUploadFails dbInsertFails).2.2.all
        (fun c => !c.isStorageUpload && !c.isDbInsert)) = true := by
  simp [uploadPaper, getCurrentUserRecord, hauth, hrec, hty,
    NetCall.isStorageUpload, NetCall.isDbInsert]

/-- Witness for C3 on an executable upload of paper.exe. -/
theorem uploadPaper_invalid_type_no_effect_witness :
    (uploadPaper exDB { name := "paper.exe", size := 100 } exMeta 123 false false).1 =
        Res.err "Invalid file type. Please upload PDF, DOC, or DOCX files only."
    ∧ (uploadPaper exDB { name := "paper.exe", size := 100 } exMeta 123 false false).2.1 = exDB
    ∧ ((uploadPaper exDB { name := "paper.exe", size := 100 } exMeta 123 false false).2.2.all
        (fun c => !c.isStorageUpload && !c.isDbInsert)) = true :=
  uploadPaper_invalid_type_no_effect exDB { name := "paper.exe", size := 100 } exMeta
    123 "auth1" exUser false false (by decide) (by decide) (by decide)

/-- C4 as stated is false: an oversized upload is rejected only after
the auth lookup and the users-table query, both network requests.  At a
signed-in caller with a resolved profile and a 10 MiB + 1 byte pdf, the
size error is returned with an auth request and a users select already
in the request sequence. -/
theorem uploadPaper_oversize_after_network_calls :
    (uploadPaper exDB { name := "paper.pdf", size := 10485761 } exMeta 0 false false).1 =
        Res.err "File size exceeds 10 MB limit"
    ∧ NetCall.authGetUser ∈
        (uploadPaper exDB { name := "paper.pdf", size := 10485761 } exMeta 0 false false).2.2
    ∧ NetCall.dbSelect "users" ∈
        (uploadPaper exDB { name := "paper.pdf", size := 10485761 } exMeta 0 false false).2.2 := by
  decide

/-- C4 amended: with the caller signed in and the profile resolved, a
file of allowed type larger than 10 MiB is rejected with the size error
before any storage upload or record-store insert is issued and with the
state untouched; the requests that do precede the rejection are exactly
the two auth lookups and the users-table query. -/
theorem uploadPaper_oversize_no_write (db : DB) (file : FileData)
    (metadata : PaperMeta) (now : Nat) (uid : String) (u : UserRec)
    (storageUploadFails dbInsertFails : Bool)
    (hauth : db.authUser = some uid)
    (hrec : db.users.filter (fun v => v.auth_id == uid) = [u])
    (hty : isValidFileType file.name [".pdf", ".doc", ".docx"] = true)
    (hsz : 10 * 1024 * 1024 < file.size) :
    (uploadPaper db file metadata now storageUploadFails dbInsertFails).1 =
        Res.err "File size exceeds 10 MB limit"
    ∧ (uploadPaper db file metadata now storageUploadFails dbInsertFails).2.1 = db
    ∧ (uploadPaper db file metadata now storageUploadFails dbInsertFails).2.2 =
        [NetCall.authGetUser, NetCall.authGetUser, NetCall.dbSelect "users"] := by
  have hsz2 : isValidFileSize file.size 10 = false := by
    simp only [isValidFileSize, decide_eq_false_iff_not, not_le]
    omega
  simp [uploadPaper, getCurrentUserRecord, hauth, hrec, hty, hsz2]

/-- Witness for the amended C4 at the 10 MiB + 1 byte pdf. -/
theorem uploadPaper_oversize_no_write_witness :
    (uploadPaper exDB { name := "paper.pdf", size := 10485761 } exMeta 0 false false).1 =
        Res.err "File size exceeds 10 MB limit"
    ∧ (uploadPaper exDB { name := "paper.pdf", size := 10485761 } exMeta 0 false false).2.1 = exDB
    ∧ (uploadPaper exDB { name := "paper.pdf", size := 10485761 } exMeta 0 false false).2.2 =
        [NetCall.authGetUser, NetCall.authGetUser, NetCall.dbSelect "users"] :=
  uploadPaper_oversize_no_write exDB { name := "paper.pdf", size := 10485761 } exMeta
    0 "auth1" exUser false false (by decide) (by decide) (by decide) (by decide)

/-- C2: with the caller signed in, the profile resolved and the file
valid, uploadPaper succeeds with a papers row of status pending whose
recorded byte size is the file size and whose file_url is the storage
path userId slash timestamp underscore name; the row is appended to the
table and the object stored under the same key. -/
theorem uploadPaper_valid_creates_pending (db : DB) (file : FileData)
    (metadata : PaperMeta) (now : Nat) (uid : String) (u : UserRec)
    (hauth : db.authUser = some uid)
    (hrec : db.users.filter (fun v => v.auth_id == uid) = [u])
    (hty : isValidFileType file.name [".pdf", ".doc", ".docx"] = true)
    (hsz : isValidFileSize file.size 10 = true) :
    ∃ p : Paper,
      (uploadPaper db file metadata now false false).1 = Res.ok p
      ∧ p.status = "pending"
      ∧ p.file_size_bytes = file.size
      ∧ p.file_url = u.id ++ "/" ++ toString now ++ "_" ++ file.name
      ∧ (uploadPaper db file metadata now false false).2.1.papers = db.papers ++ [p]
      ∧ (uploadPaper db file metadata now false false).2.1.storage =
          db.storage ++ [u.id ++ "/" ++ toString now ++ "_" ++ file.name] := by
  refine ⟨{ id := toString db.nextPaperId, user_id := u.id, user_name := u.full_name,
            user_email := u.email, paper_title := metadata.title,
            abstract := metadata.abstract, keywords := metadata.keywords,
            file_name := file.name,
            file_url := u.id ++ "/" ++ toString now ++ "_" ++ file.name,
            file_size_bytes := file.size, status := "pending", reviewed_by := none,
            reviewer_name := none, review_date := none, review_comments := none },
          ?_, rfl, rfl, rfl, ?_, ?_⟩ <;>
    simp [uploadPaper, getCurrentUserRecord, hauth, hrec, hty, hsz]

/-- Witness for C2: the 2 MiB paper.pdf of the spec scenario. -/
theorem uploadPaper_valid_creates_pending_witness :
    ∃ p : Paper,
      (uploadPaper exDB { name := "paper.pdf", size := 2097152 } exMeta 123 false false).1 =
          Res.ok p
      ∧ p.status = "pending"
      ∧ p.file_size_bytes = 2097152
      ∧ p.file_url = "u1" ++ "/" ++ toString 123 ++ "_" ++ "paper.pdf"
      ∧ (uploadPaper exDB { name := "paper.pdf", size := 2097152 } exMeta 123 false false).2.1.papers =
          exDB.papers ++ [p]
      ∧ (uploadPaper exDB { name := "paper.pdf", size := 2097152 } exMeta 123 false false).2.1.storage =
          exDB.storage ++ ["u1" ++ "/" ++ toString 123 ++ "_" ++ "paper.pdf"] :=
  uploadPaper_valid_creates_pending exDB { name := "paper.pdf", size := 2097152 } exMeta
    123 "auth1" exUser (by decide) (by decide) (by decide) (by decide)

/-- C6: updatePaperStatus rejects a caller who is not a resolved active
admin; with such an admin, a single matching paper, its owner present
with a non-empty email, and an arbitrary newStatus string (nothing
constrains it to the five known values), it succeeds with the row
stamped with the reviewer identity, review date and comments, and
appends one notification-log row and one activity-log row, both of type
paper_status_update. -/
theorem updatePaperStatus_spec :
    (∀ (db : DB) (paperId newStatus comments nowIso : String),
        isAdmin db = none →
        updatePaperStatus db paperId newStatus comments nowIso =
          (Res.err "Unauthorized: Admin access required", db))
    ∧ (∀ (db : DB) (paperId newStatus comments nowIso uid : String)
          (a : AdminRec) (p : Paper) (u : UserRec),
        db.authUser = some uid →
        db.admins.filter (fun x => x.auth_id == uid && x.is_active) = [a] →
        db.papers.filter (fun q => q.id == paperId) = [p] →
        db.users.find? (fun v => v.id == p.user_id) = some u →
        u.email ≠ "" →
        ∃ q : Paper,
          (updatePaperStatus db paperId newStatus comments nowIso).1 = Res.ok q
          ∧ q.status = newStatus
          ∧ q.reviewed_by = some a.id
          ∧ q.reviewer_name = some a.full_name
          ∧ q.review_date = some nowIso
          ∧ q.review_comments = some comments
          ∧ (updatePaperStatus db paperId newStatus comments nowIso).2.papers =
              db.papers.map (fun x => if x.id == paperId then q else x)
          ∧ (∃ e : EmailNotif,
              (updatePaperStatus db paperId newStatus comments nowIso).2.email_notifications =
                db.email_notifications ++ [e]
              ∧ e.type = "paper_status_update" ∧ e.recipient_email = u.email)
          ∧ (∃ l : ActivityLog,
              (updatePaperStatus db paperId newStatus comments nowIso).2.activity_logs =
                db.activity_logs ++ [l]
              ∧ l.action_type = "paper_status_update")) := by
  constructor
  · intro db paperId newStatus comments nowIso h
    simp [updatePaperStatus, h]
  · intro db paperId newStatus comments nowIso uid a p u hauth hadm hfetch hfind hemail
    have hemail2 : (u.email == "") = false := beq_eq_false_iff_ne.mpr hemail
    refine ⟨applyReview a newStatus comments nowIso p, ?_⟩
    simp [updatePaperStatus, isAdmin, hauth, hadm, hfetch, applyReview,
      sendStatusUpdateEmail, sendUserNotification, logAdminActivity, hfind, hemail2]
    intro x hx
    by_cases hid : x.id = paperId
    · have hxm : x ∈ db.papers.filter (fun q => q.id == paperId) :=
        List.mem_filter.mpr ⟨hx, by simp [hid]⟩
      rw [hfetch] at hxm
      have hxp : x = p := List.mem_singleton.mp hxm
      subst hxp
      simp [hid]
    · simp [hid]

/-- Witness for C6: the admin moves the pending paper to an arbitrary
status string with comments, and both log rows appear. -/
theorem updatePaperStatus_spec_witness :
    ∃ q : Paper,
      (updatePaperStatus exDbAdmin "p1" "some_unknown_status" "Great work" "2026-02-03").1 =
          Res.ok q
      ∧ q.status = "some_unknown_status"
      ∧ q.reviewed_by = some "ad1"
      ∧ q.reviewer_name = some "Bob Admin"
      ∧ q.review_date = some "2026-02-03"
      ∧ q.review_comments = some "Great work"
      ∧ (updatePaperStatus exDbAdmin "p1" "some_unknown_status" "Great work" "2026-02-03").2.papers =
          exDbAdmin.papers.map (fun x => if x.id == "p1" then q else x)
      ∧ (∃ e : EmailNotif,
          (updatePaperStatus exDbAdmin "p1" "some_unknown_status" "Great work" "2026-02-03").2.email_notifications =
            exDbAdmin.email_notifications ++ [e]
          ∧ e.type = "paper_status_update" ∧ e.recipient_email = exUser.email)
      ∧ (∃ l : ActivityLog,
          (updatePaperStatus exDbAdmin "p1" "some_unknown_status" "Great work" "2026-02-03").2.activity_logs =
            exDbAdmin.activity_logs ++ [l]
          ∧ l.action_type = "paper_status_update") := by
  have h := updatePaperStatus_spec.2 exDbAdmin "p1" "some_unknown_status" "Great work"
    "2026-02-03" "auth9" exAdmin exPaperPending exUser (by decide) (by decide) (by decide)
    (by decide) (by decide)
  simpa using h

/-- C7 as stated is false on a table holding the sentinel uuid: the
bulk delete filters with neq on the zero uuid, so a paper whose id is
exactly that sentinel survives, even though the call reports success
with the fetched count. -/
theorem deleteAllPapers_sentinel_survives :
    (deleteAllPapers exDbZero false false).1 = Res.ok 1
    ∧ (deleteAllPapers exDbZero false false).2.papers ≠ [] := by
  decide

/-- C7 amended: for an admin caller on a non-empty papers table,
deleteAllPapers reports success with the fetched count, deletes every
row except one carrying the sentinel zero uuid (hence all rows whenever
no id equals the sentinel), best-effort removes the collected non-empty
storage paths when the bulk removal succeeds, and appends exactly one
activity-log row of type delete_all_papers carrying the fetched count. -/
theorem deleteAllPapers_spec (db : DB) (uid : String) (a : AdminRec)
    (hauth : db.authUser = some uid)
    (hadm : db.admins.filter (fun x => x.auth_id == uid && x.is_active) = [a])
    (hne : db.papers ≠ []) :
    ∀ storageRemoveFails : Bool,
      (deleteAllPapers db storageRemoveFails false).1 = Res.ok db.papers.length
      ∧ (deleteAllPapers db storageRemoveFails false).2.papers =
          db.papers.filter (fun p => p.id == zeroUuid)
      ∧ ((∀ p ∈ db.papers, p.id ≠ zeroUuid) →
          (deleteAllPapers db storageRemoveFails false).2.papers = [])
      ∧ (storageRemoveFails = false →
          ((db.papers.map (fun p => p.file_url)).filter (fun s => s != "")) ≠ [] →
          (deleteAllPapers db storageRemoveFails false).2.storage =
            db.storage.filter (fun k =>
              !(((db.papers.map (fun p => p.file_url)).filter (fun s => s != "")).contains k)))
      ∧ (∃ l : ActivityLog,
          (deleteAllPapers db storageRemoveFails false).2.activity_logs =
            db.activity_logs ++ [l]
          ∧ l.action_type = "delete_all_papers"
          ∧ l.new_data = ActionData.deleteAll db.papers.length) := by
  intro sf
  have hlen : 0 < db.papers.length := List.length_pos.mpr hne
  refine ⟨?_, ?_, ?_, ?_, ?_⟩
  · cases sf <;> simp [deleteAllPapers, isAdmin, hauth, hadm, logAdminActivity]
  · cases sf <;> simp [deleteAllPapers, isAdmin, hauth, hadm, logAdminActivity]
  · intro hall
    have : db.papers.filter (fun p => p.id == zeroUuid) = [] := by
      apply List.filter_eq_nil_iff.mpr
      intro p hp
      simpa using hall p hp
    cases sf <;>
      simp [deleteAllPapers, isAdmin, hauth, hadm, logAdminActivity, this]
  · intro hsf hfu
    subst hsf
    have hfu2 : 0 < ((db.papers.map (fun p => p.file_url)).filter (fun s => s != "")).length :=
      List.length_pos.mpr hfu
    simp [deleteAllPapers, isAdmin, hauth, hadm, logAdminActivity, hlen, hfu2]
  · cases sf <;> simp [deleteAllPapers, isAdmin, hauth, hadm, logAdminActivity]

/-- Witness for the amended C7: the admin wipes the two-paper table;
no id equals the sentinel, so nothing remains. -/
theorem deleteAllPapers_spec_witness :
    (deleteAllPapers exDbAdmin false false).1 = Res.ok exDbAdmin.papers.length
    ∧ (deleteAllPapers exDbAdmin false false).2.papers =
        exDbAdmin.papers.filter (fun p => p.id == zeroUuid)
    ∧ ((∀ p ∈ exDbAdmin.papers, p.id ≠ zeroUuid) →
        (deleteAllPapers exDbAdmin false false).2.papers = [])
    ∧ (false = false →
        ((exDbAdmin.papers.map (fun p => p.file_url)).filter (fun s => s != "")) ≠ [] →
        (deleteAllPapers exDbAdmin false false).2.storage =
          exDbAdmin.storage.filter (fun k =>
            !(((exDbAdmin.papers.map (fun p => p.file_url)).filter (fun s => s != "")).contains k)))
    ∧ (∃ l : ActivityLog,
        (deleteAllPapers exDbAdmin false false).2.activity_logs =
          exDbAdmin.activity_logs ++ [l]
        ∧ l.action_type = "delete_all_papers"
        ∧ l.new_data = ActionData.deleteAll exDbAdmin.papers.length) :=
  deleteAllPapers_spec exDbAdmin "auth9" exAdmin (by decide) (by decide) (by decide) false

end SiteEmar
